import Mathlib

/-!
Verification of the ocr-doc-frontend client against its specification.

The TypeScript pages and API client are shallowly embedded: browser side
effects (React state setters, localStorage, fetch/axios) become explicit
state passing, thrown exceptions become `Except.error`, and a function that
returns the `HttpRequest` it would issue models "the request is issued";
an `Except.error` result produced before any request value is constructed
models "the call throws client-side and no request is issued".
External host functions (the JS `Date` parser and `JSON.parse`) are taken
as parameters, constrained only where the claim constrains them.
-/

/-- Model of an in-memory browser File object (only identity matters). -/
structure JsFile where
  name : String
  deriving DecidableEq, Repr

/-- Model of the pair of optional download URLs the backend returns. -/
structure UrlPair where
  docx : Option String
  pdf : Option String
  deriving DecidableEq, Repr

/-- Model of a resolved auth-provider user (supabase.auth.getUser). -/
structure JsUser where
  id : String
  deriving DecidableEq, Repr

/-- Model of an auth-provider session (supabase.auth.getSession). -/
structure Session where
  access_token : String
  deriving DecidableEq, Repr

/-- Value of a multipart form field: FormData.append takes text or a File. -/
inductive FormValue
  | text (s : String)
  | file (f : JsFile)
  deriving DecidableEq, Repr

/-- Body of an outgoing HTTP request: JSON object or multipart form data. -/
inductive RequestBody
  | json (fields : List (String × String))
  | multipart (fields : List (String × FormValue))
  deriving DecidableEq, Repr

/-- An HTTP request as assembled by the client. -/
structure HttpRequest where
  method : String
  path : String
  body : RequestBody
  deriving DecidableEq, Repr

/-- An HTTP response as seen by the fetch-based client. -/
structure HttpResponse where
  status : Nat
  statusText : String
  bodyText : String
  deriving DecidableEq, Repr

/-- Fetch standard Response.ok: true exactly when the status is in 2xx. -/
def HttpResponse.isOk (r : HttpResponse) : Bool :=
  200 ≤ r.status && r.status ≤ 299

/-- getCurrentUserId (src/unnamed/part_001 lines 13-17): resolves the current
user id, throwing the string below when the auth provider has no user. -/
def getCurrentUserId (user : Option JsUser) : Except String String :=
  match user with
  | none => Except.error "User not authenticated"
  | some u => Except.ok u.id

/-- apiClient.ocrConvert (src/unnamed/part_001 lines 29-39): resolve the user
id first, then build the multipart request with fields file and user_id.
An error result is produced before any HttpRequest value exists, modelling
that no HTTP request is issued when getCurrentUserId throws. -/
def apiClient.ocrConvert (user : Option JsUser) (file : JsFile) :
    Except String HttpRequest :=
  (getCurrentUserId user).map fun userId =>
    ⟨"POST", "/ocr/convert",
      RequestBody.multipart [("file", FormValue.file file), ("user_id", FormValue.text userId)]⟩

/-- Headers built by the fetch-based APIClient.ocrConvert (src/src/lib/api.ts
lines 24-28): Authorization only when a session exists. -/
def ocrConvertHeaders (session : Option Session) : List (String × String) :=
  match session with
  | some s => [("Authorization", "Bearer " ++ s.access_token)]
  | none => []

/-- Response handling of APIClient.ocrConvert (src/src/lib/api.ts lines
36-40): non-ok responses throw an Error whose message is built from the
response statusText; ok responses yield the parsed body. -/
def APIClient.ocrConvertResult (response : HttpResponse) : Except String String :=
  if response.isOk then Except.ok response.bodyText
  else Except.error ("OCR conversion failed: " ++ response.statusText)

/-- apiClient.generateDocument (src/unnamed/part_001 lines 41-63): resolve the
user id, then send multipart with fields prompt, user_id, file when a file is
attached, and a JSON body with fields prompt and user_id otherwise. -/
def apiClient.generateDocument (user : Option JsUser) (prompt : String)
    (file : Option JsFile) : Except String HttpRequest :=
  (getCurrentUserId user).map fun userId =>
    match file with
    | some f =>
        ⟨"POST", "/document/generate",
          RequestBody.multipart
            [("prompt", FormValue.text prompt), ("user_id", FormValue.text userId),
             ("file", FormValue.file f)]⟩
    | none =>
        ⟨"POST", "/document/generate",
          RequestBody.json [("prompt", prompt), ("user_id", userId)]⟩

/-- Local state of the OCR page (src/src/pages/OCRPage.tsx lines 8-12). -/
structure OCRState where
  file : Option JsFile
  extractedText : String
  loading : Bool
  processed : Bool
  downloadUrls : UrlPair
  deriving DecidableEq, Repr

/-- onDrop of the OCR page (src/src/pages/OCRPage.tsx lines 14-22): when a
file was accepted, store it and clear text, processed flag and URLs. -/
def ocrOnDrop (acceptedFiles : List JsFile) (s : OCRState) : OCRState :=
  match acceptedFiles.head? with
  | some selectedFile =>
      { s with file := some selectedFile, extractedText := "",
               processed := false, downloadUrls := ⟨none, none⟩ }
  | none => s

/-- Local state of the Generate page, file-upload variant
(src/src/pages/GeneratePage.tsx lines 176-181). -/
structure GenState where
  generatedDocument : String
  loading : Bool
  processed : Bool
  file : Option JsFile
  downloadUrls : UrlPair
  deriving DecidableEq, Repr

/-- onDrop of the Generate page (src/src/pages/GeneratePage.tsx lines
188-190): setFile(acceptedFiles[0] || null) and nothing else. -/
def genOnDrop (acceptedFiles : List JsFile) (s : GenState) : GenState :=
  { s with file := acceptedFiles.head? }

/-- generateSchema (src/src/pages/GeneratePage.tsx lines 9-11 and 171-173):
zod string with min length 10 and the given message. -/
def generateSchemaValidate (prompt : String) : Except String String :=
  if prompt.length < 10 then
    Except.error "Prompt must be at least 10 characters long"
  else Except.ok prompt

/-- Submission pipeline of the Generate page: handleSubmit runs the zod
resolver and calls onSubmit (which issues apiClient.generateDocument,
src/src/pages/GeneratePage.tsx lines 198-212) only on validated data. -/
def GeneratePage.submit (user : Option JsUser) (prompt : String)
    (file : Option JsFile) : Except String HttpRequest :=
  match generateSchemaValidate prompt with
  | Except.error msg => Except.error msg
  | Except.ok p => apiClient.generateDocument user p file

/-- A locally synthesized browser download: blob content, MIME type and the
suggested filename set on the anchor element. -/
structure BlobDownload where
  content : String
  mimeType : String
  filename : String
  deriving DecidableEq, Repr

/-- The two download formats offered by the result buttons. -/
inductive DocFormat
  | docx
  | pdf
  deriving DecidableEq, Repr

/-- Suffix test on strings, by character list. -/
def endsIn (s t : String) : Bool :=
  t.data.isSuffixOf s.data

/-- handleDownload of the text-returning Generate variant
(src/src/pages/GeneratePage.tsx lines 44-64): refuse when no document is in
memory, otherwise synthesize a text/plain blob of the generated document
named with extension chosen by (format === docx ? "txt" : "txt"). -/
def GeneratePage.handleDownload (generatedDocument : String)
    (format : DocFormat) : Option BlobDownload :=
  if generatedDocument = "" then none
  else
    some ⟨generatedDocument, "text/plain",
      "generated-document." ++ (match format with
        | DocFormat.docx => "txt"
        | DocFormat.pdf => "txt")⟩

/-- A record as fetched by the admin and records pages (src/unnamed/part_000
lines 7-14). -/
structure AdminRecord where
  id : String
  user_id : String
  action : String
  created_at : String
  prompt : Option String
  output_file_url : String
  deriving DecidableEq, Repr

/-- JS comparison new Date(a) > new Date(b) on parsed millisecond values:
an invalid date is NaN and every comparison with NaN is false, modelled by
Option Int with none for invalid. -/
def jsDateGt (a b : Option Int) : Bool :=
  match a, b with
  | some x, some y => decide (y < x)
  | _, _ => false

/-- Recent Activity statistic (src/unnamed/part_000 lines 156-158): count the
records r with new Date(r.created_at) > new Date(Date.now() - 24*60*60*1000).
The host Date parser is the parameter parseDate; now is Date.now(). -/
def recentActivityStat (parseDate : String → Option Int) (now : Int)
    (records : List AdminRecord) : Nat :=
  (records.filter fun r =>
    jsDateGt (parseDate r.created_at) (some (now - 24*60*60*1000))).length

/-- The predicate named by the claim: created_at parses to a time strictly
greater than the cutoff. -/
def createdStrictlyAfter (parseDate : String → Option Int) (cutoff : Int)
    (r : AdminRecord) : Bool :=
  (parseDate r.created_at).elim false fun t => decide (cutoff < t)

/-- Per-row URL parsing (src/src/pages/RecordsPage.tsx lines 92-97 and
src/unnamed/part_000 lines 189-192): JSON.parse(record.output_file_url or
"\x7b\x7d" when the field is empty/falsy) inside try/catch, with the empty
pair on failure. The host JSON.parse is the parameter jsonParse. -/
def parseRowUrls (jsonParse : String → Except String UrlPair) (raw : String) :
    UrlPair :=
  match jsonParse (if raw = "" then "\x7b\x7d" else raw) with
  | Except.ok urls => urls
  | Except.error _ => ⟨none, none⟩

/-- JS truthiness of an optional string URL: absent and empty are falsy. -/
def jsTruthy (s : Option String) : Bool :=
  match s with
  | some t => decide (t ≠ "")
  | none => false

/-- What a rendered row shows: the action label and whether the DOCX and PDF
download affordances are present (src/unnamed/part_000 lines 208-216). -/
structure RowView where
  action : String
  hasDocx : Bool
  hasPdf : Bool
  deriving DecidableEq, Repr

/-- Rendering of a single record row. -/
def renderRow (jsonParse : String → Except String UrlPair) (r : AdminRecord) :
    RowView :=
  let urls := parseRowUrls jsonParse r.output_file_url
  ⟨r.action, jsTruthy urls.docx, jsTruthy urls.pdf⟩

/-- Rendering of the whole table body: records.map over rows
(src/unnamed/part_000 line 188), each row parsing independently. -/
def renderRows (jsonParse : String → Except String UrlPair)
    (records : List AdminRecord) : List RowView :=
  records.map (renderRow jsonParse)

/-- The nested object under the data key of the admin login response body, as
dereferenced by the dashboard. -/
structure LoginInner where
  access_token : String
  deriving DecidableEq, Repr

/-- The admin login response body: an optional top-level access_token (the
shape documented by the spec) and an optional nested data object (the shape
the page dereferences). -/
structure LoginBody where
  access_token : Option String
  data : Option LoginInner
  deriving DecidableEq, Repr

/-- apiClient.adminLogin (src/unnamed/part_001 lines 71-74): POST the
credentials and return the response body (res.data) verbatim. -/
def apiClient.adminLogin (email password : String) (responseBody : LoginBody) :
    HttpRequest × LoginBody :=
  (⟨"POST", "/auth/admin/login",
     RequestBody.json [("email", email), ("password", password)]⟩,
   responseBody)

/-- loginMutation onSuccess (src/unnamed/part_000 lines 26-30): stores
data.data.access_token under admin_token. When the body has no data field,
reading access_token of undefined throws a TypeError before setItem runs, so
the stored value is unchanged. Returns the resulting stored admin_token. -/
def adminTokenAfterLoginSuccess (body : LoginBody) (storage : Option String) :
    Option String :=
  match body.data with
  | none => storage
  | some inner => some inner.access_token

/-- Observable state of the admin page: the adminToken React state and the
localStorage value under the key admin_token. -/
structure AdminPageState where
  adminToken : String
  storage : Option String
  deriving DecidableEq, Repr

/-- Events that change the admin token state: a successful login
(src/unnamed/part_000 lines 26-30) or a logout (lines 56-60). -/
inductive AdminEvent
  | loginSuccess (token : String)
  | logout
  deriving DecidableEq, Repr

/-- Whether an event is a successful login. -/
def AdminEvent.isLoginSuccess : AdminEvent → Bool
  | AdminEvent.loginSuccess _ => true
  | AdminEvent.logout => false

/-- One transition of the admin token state (both events overwrite the prior
state wholesale, so the prior state is not read). -/
def adminStep (_s : AdminPageState) : AdminEvent → AdminPageState
  | AdminEvent.loginSuccess t => ⟨t, some t⟩
  | AdminEvent.logout => ⟨"", none⟩

/-- Iterated transitions. -/
def adminSteps (s : AdminPageState) : List AdminEvent → AdminPageState
  | [] => s
  | e :: es => adminSteps (adminStep s e) es

/-- handleLogout (src/unnamed/part_000 lines 56-60): clear the React state
and remove admin_token from localStorage. -/
def handleLogout (s : AdminPageState) : AdminPageState :=
  adminStep s AdminEvent.logout

/-- Enabled flag of the admin-records query (src/unnamed/part_000 line 38):
enabled is the truthiness of adminToken, so the records fetch is issued only
when the token state is a non-empty string. -/
def adminQueryEnabled (s : AdminPageState) : Bool :=
  decide (s.adminToken ≠ "")

/-- The headers attached to admin calls (src/unnamed/part_001 lines 77-80 and
85-88): Authorization with the stored token when localStorage holds a truthy
admin_token, the empty header object otherwise; getItem yields null (none)
when the key is absent, and both null and the empty string are falsy. -/
def adminAuthHeaders (storedToken : Option String) : List (String × String) :=
  match storedToken with
  | some t => if t = "" then [] else [("Authorization", "Bearer " ++ t)]
  | none => []

/-- An admin HTTP request: method, path and headers. -/
structure AdminRequest where
  method : String
  path : String
  headers : List (String × String)
  deriving DecidableEq, Repr

/-- apiClient.adminGetAllRecords (src/unnamed/part_001 lines 76-82): a total
function into AdminRequest, so the request is issued for every storedToken
value; there is no client-side authentication check. -/
def apiClient.adminGetAllRecords (storedToken : Option String) : AdminRequest :=
  ⟨"GET", "/records/admin/all", adminAuthHeaders storedToken⟩

/-- apiClient.adminDeleteRecord (src/unnamed/part_001 lines 84-90): likewise
total, the request is always issued. -/
def apiClient.adminDeleteRecord (storedToken : Option String)
    (recordId : String) : AdminRequest :=
  ⟨"DELETE", "/records/admin/record/" ++ recordId, adminAuthHeaders storedToken⟩

/-! Theorems. -/

/-- C1 counterexample: on the Generate page, selecting a new file does not
clear the previously generated text nor the stored download links — refuting
the claim that every form clears prior results on file selection, at the
concrete state holding text "old document" and a docx link. -/
theorem C1_counterexample :
    (genOnDrop [⟨"new.png"⟩]
        ⟨"old document", false, true, none, ⟨some "u", none⟩⟩).generatedDocument
      = "old document"
    ∧ (genOnDrop [⟨"new.png"⟩]
        ⟨"old document", false, true, none, ⟨some "u", none⟩⟩).downloadUrls
      ≠ ⟨none, none⟩ := by
  constructor
  · rfl
  · decide

/-- C1 amended: on the OCR page, selecting a new file stores it and clears
the extracted text, the processed flag and the download links; on the
Generate page, selecting a new file only replaces the stored file, leaving
the previously generated text and download links unchanged. -/
theorem C1_amended (f : JsFile) (fs : List JsFile) (s : OCRState)
    (t : GenState) :
    ocrOnDrop (f :: fs) s = ⟨some f, "", s.loading, false, ⟨none, none⟩⟩
    ∧ (genOnDrop (f :: fs) t).file = some f
    ∧ (genOnDrop (f :: fs) t).generatedDocument = t.generatedDocument
    ∧ (genOnDrop (f :: fs) t).downloadUrls = t.downloadUrls := by
  refine ⟨rfl, rfl, rfl, rfl⟩

/-- C2: with no resolved user, apiClient.ocrConvert fails with the
authentication error before any HTTP request is built; and the fetch-based
APIClient.ocrConvert turns every non-2xx response into an error whose
message carries the HTTP status text. -/
theorem C2_ocrConvert_errors (file : JsFile) (resp : HttpResponse)
    (hnok : resp.isOk = false) :
    apiClient.ocrConvert none file = Except.error "User not authenticated"
    ∧ APIClient.ocrConvertResult resp
        = Except.error ("OCR conversion failed: " ++ resp.statusText)
    ∧ ∀ msg, APIClient.ocrConvertResult resp = Except.error msg →
        ∃ p, msg = p ++ resp.statusText := by
  refine ⟨rfl, ?_, ?_⟩
  · simp [APIClient.ocrConvertResult, hnok]
  · intro msg hmsg
    simp [APIClient.ocrConvertResult, hnok] at hmsg
    exact ⟨"OCR conversion failed: ", hmsg.symm⟩

/-- C2 witness at a concrete file and a concrete 500 response. -/
theorem C2_witness :
    (⟨500, "Internal Server Error", ""⟩ : HttpResponse).isOk = false
    ∧ apiClient.ocrConvert none ⟨"scan.png"⟩
        = Except.error "User not authenticated"
    ∧ APIClient.ocrConvertResult ⟨500, "Internal Server Error", ""⟩
        = Except.error ("OCR conversion failed: " ++ "Internal Server Error") :=
  ⟨by decide,
   (C2_ocrConvert_errors ⟨"scan.png"⟩ ⟨500, "Internal Server Error", ""⟩
      (by decide)).1,
   (C2_ocrConvert_errors ⟨"scan.png"⟩ ⟨500, "Internal Server Error", ""⟩
      (by decide)).2.1⟩

/-- C3: the Recent Activity statistic equals the number of records whose
created_at parses strictly after now minus 24 hours, and a record parsing to
exactly now minus 24 hours is not counted. -/
theorem C3_recentActivity (parseDate : String → Option Int) (now : Int)
    (records : List AdminRecord) :
    recentActivityStat parseDate now records
      = records.countP (createdStrictlyAfter parseDate (now - 24*60*60*1000))
    ∧ ∀ r : AdminRecord, parseDate r.created_at = some (now - 24*60*60*1000) →
        recentActivityStat parseDate now [r] = 0 := by
  constructor
  · rw [recentActivityStat, List.countP_eq_length_filter]
    refine congrArg List.length (List.filter_congr fun r _ => ?_)
    rw [createdStrictlyAfter]
    cases parseDate r.created_at with
    | none => rfl
    | some t => rfl
  · intro r hr
    simp [recentActivityStat, jsDateGt, hr]

/-- C3 witness: a boundary record at exactly now minus 24 hours (parser
sending everything to 0, now equal to 86400000 ms) is not counted. -/
theorem C3_witness :
    recentActivityStat (fun _ => some 0) 86400000
        [⟨"r1", "u1", "OCR Conversion", "t0", none, ""⟩] = 0 :=
  (C3_recentActivity (fun _ => some 0) 86400000
      [⟨"r1", "u1", "OCR Conversion", "t0", none, ""⟩]).2
    ⟨"r1", "u1", "OCR Conversion", "t0", none, ""⟩ (by norm_num)

/-- C4: assuming JSON.parse accepts the empty-object literal, a record whose
output_file_url is empty or fails to parse renders (without any exception
escaping, since renderRow is total) as its action with both download
affordances absent, and the surrounding rows render exactly as they do on
their own. -/
theorem C4_malformed_row (jsonParse : String → Except String UrlPair)
    (hempty : jsonParse "\x7b\x7d" = Except.ok ⟨none, none⟩)
    (r : AdminRecord)
    (hbad : r.output_file_url = ""
      ∨ ∃ e, jsonParse r.output_file_url = Except.error e)
    (pre post : List AdminRecord) :
    renderRow jsonParse r = ⟨r.action, false, false⟩
    ∧ renderRows jsonParse (pre ++ r :: post)
        = renderRows jsonParse pre
          ++ renderRow jsonParse r :: renderRows jsonParse post := by
  constructor
  · by_cases hr0 : r.output_file_url = ""
    · simp [renderRow, parseRowUrls, hr0, hempty, jsTruthy]
    · rcases hbad with hb | ⟨e, hb⟩
      · exact absurd hb hr0
      · simp [renderRow, parseRowUrls, hr0, hb, jsTruthy]
  · simp [renderRows]

/-- C4 witness: a malformed output_file_url renders as a row with both
affordances absent, under a concrete parse function accepting only the
empty-object literal. -/
theorem C4_witness :
    renderRow
        (fun s => if s = "\x7b\x7d" then Except.ok ⟨none, none⟩
          else Except.error "SyntaxError")
        ⟨"r1", "u1", "OCR Conversion", "t0", none, "not-json"⟩
      = ⟨"OCR Conversion", false, false⟩ :=
  (C4_malformed_row
      (fun s => if s = "\x7b\x7d" then Except.ok ⟨none, none⟩
        else Except.error "SyntaxError")
      (by simp)
      ⟨"r1", "u1", "OCR Conversion", "t0", none, "not-json"⟩
      (Or.inr ⟨"SyntaxError", by simp⟩) [] []).1

/-- C5: with a resolved user, generateDocument sends the JSON body with
exactly the fields prompt and user_id when no file is attached, and the
multipart body with exactly the fields prompt, user_id and file when a file
is attached. -/
theorem C5_generateDocument_bodies (u : JsUser) (prompt : String)
    (f : JsFile) :
    apiClient.generateDocument (some u) prompt none
      = Except.ok ⟨"POST", "/document/generate",
          RequestBody.json [("prompt", prompt), ("user_id", u.id)]⟩
    ∧ apiClient.generateDocument (some u) prompt (some f)
      = Except.ok ⟨"POST", "/document/generate",
          RequestBody.multipart
            [("prompt", FormValue.text prompt),
             ("user_id", FormValue.text u.id),
             ("file", FormValue.file f)]⟩ := by
  exact ⟨rfl, rfl⟩

/-- C6: a prompt shorter than 10 characters is rejected with exactly the
message of the schema and the submission pipeline stops with that error (no
request is built); a prompt of 10 or more characters validates and the
submission proceeds to the API call. -/
theorem C6_prompt_validation (user : Option JsUser) (prompt : String)
    (file : Option JsFile) :
    (prompt.length < 10 →
      generateSchemaValidate prompt
          = Except.error "Prompt must be at least 10 characters long"
      ∧ GeneratePage.submit user prompt file
          = Except.error "Prompt must be at least 10 characters long")
    ∧ (10 ≤ prompt.length →
      generateSchemaValidate prompt = Except.ok prompt
      ∧ GeneratePage.submit user prompt file
          = apiClient.generateDocument user prompt file) := by
  constructor
  · intro h
    rw [GeneratePage.submit, generateSchemaValidate, if_pos h]
    exact ⟨rfl, rfl⟩
  · intro h
    rw [GeneratePage.submit, generateSchemaValidate, if_neg (by omega)]
    exact ⟨rfl, rfl⟩

/-- C6 witness: the five-character prompt is rejected with the exact message
and a ten-character prompt validates. -/
theorem C6_witness :
    (generateSchemaValidate "short"
        = Except.error "Prompt must be at least 10 characters long"
      ∧ GeneratePage.submit none "short" none
        = Except.error "Prompt must be at least 10 characters long")
    ∧ generateSchemaValidate "abcdefghij" = Except.ok "abcdefghij" :=
  ⟨(C6_prompt_validation none "short" none).1 (by decide),
   ((C6_prompt_validation (some ⟨"u1"⟩) "abcdefghij" none).2 (by decide)).1⟩

/-- C7: at the response shape the specification documents for admin login (a
body carrying a top-level access_token and no data field), the success
handler dereferences data.data.access_token, throws before setItem runs, and
the stored admin_token stays empty instead of becoming the access_token of
the response. -/
theorem C7_login_stores_nothing :
    (apiClient.adminLogin "a@b.c" "pw" ⟨some "tok123", none⟩).2
        = ⟨some "tok123", none⟩
    ∧ adminTokenAfterLoginSuccess ⟨some "tok123", none⟩ none = none
    ∧ adminTokenAfterLoginSuccess ⟨some "tok123", none⟩ none
        ≠ some "tok123" := by
  refine ⟨rfl, rfl, ?_⟩
  decide

/-- C8: after logout the stored admin token is removed and the admin-records
query is disabled, and both persist through every subsequent sequence of
events containing no successful login. -/
theorem C8_logout_disables (s : AdminPageState) (evs : List AdminEvent)
    (h : ∀ e ∈ evs, e.isLoginSuccess = false) :
    (handleLogout s).storage = none
    ∧ adminQueryEnabled (handleLogout s) = false
    ∧ (adminSteps (handleLogout s) evs).storage = none
    ∧ adminQueryEnabled (adminSteps (handleLogout s) evs) = false := by
  have key : ∀ (l : List AdminEvent), (∀ e ∈ l, e.isLoginSuccess = false) →
      adminSteps ⟨"", none⟩ l = ⟨"", none⟩ := by
    intro l
    induction l with
    | nil => intro _; rfl
    | cons e es ih =>
        intro hl
        cases e with
        | loginSuccess t =>
            exact absurd (hl _ (List.mem_cons_self _ _))
              (by simp [AdminEvent.isLoginSuccess])
        | logout =>
            have := ih fun e he => hl e (List.mem_cons_of_mem _ he)
            simpa [adminSteps, adminStep] using this
  have hlogout : handleLogout s = ⟨"", none⟩ := rfl
  rw [hlogout, key evs h]
  exact ⟨rfl, rfl, rfl, rfl⟩

/-- C8 witness: from a logged-in state, after logout followed by another
logout event, storage is empty and the query stays disabled. -/
theorem C8_witness :
    (adminSteps (handleLogout ⟨"tok", some "tok"⟩) [AdminEvent.logout]).storage
        = none
    ∧ adminQueryEnabled
        (adminSteps (handleLogout ⟨"tok", some "tok"⟩) [AdminEvent.logout])
        = false :=
  ⟨(C8_logout_disables ⟨"tok", some "tok"⟩ [AdminEvent.logout]
      (by decide)).2.2.1,
   (C8_logout_disables ⟨"tok", some "tok"⟩ [AdminEvent.logout]
      (by decide)).2.2.2⟩

/-- C9: in the text-returning Generate variant, for both formats the
download synthesized from a non-empty in-memory document is a text/plain
blob of that document whose filename ends in txt and not in docx or pdf. -/
theorem C9_download_is_txt (doc : String) (h : doc ≠ "") (format : DocFormat) :
    ∃ d : BlobDownload, GeneratePage.handleDownload doc format = some d
      ∧ d.content = doc
      ∧ d.mimeType = "text/plain"
      ∧ d.filename = "generated-document.txt"
      ∧ endsIn d.filename ".txt" = true
      ∧ endsIn d.filename ".docx" = false
      ∧ endsIn d.filename ".pdf" = false := by
  have happ : ("generated-document." ++ "txt" : String)
      = "generated-document.txt" := by decide
  refine ⟨⟨doc, "text/plain", "generated-document.txt"⟩, ?_, rfl, rfl, rfl,
    ?_, ?_, ?_⟩
  · cases format with
    | docx => rw [GeneratePage.handleDownload, if_neg h, happ]
    | pdf => rw [GeneratePage.handleDownload, if_neg h, happ]
  · exact (by decide : endsIn "generated-document.txt" ".txt" = true)
  · exact (by decide : endsIn "generated-document.txt" ".docx" = false)
  · exact (by decide : endsIn "generated-document.txt" ".pdf" = false)

/-- C9 witness at a concrete document and the docx format. -/
theorem C9_witness :
    ∃ d : BlobDownload,
      GeneratePage.handleDownload "Hello world of documents" DocFormat.docx
          = some d
      ∧ d.content = "Hello world of documents"
      ∧ d.mimeType = "text/plain"
      ∧ d.filename = "generated-document.txt"
      ∧ endsIn d.filename ".txt" = true
      ∧ endsIn d.filename ".docx" = false
      ∧ endsIn d.filename ".pdf" = false :=
  C9_download_is_txt "Hello world of documents" (by decide) DocFormat.docx

/-- C10: with no admin token in storage, both admin calls are still issued
(they are total functions into requests), each to its endpoint, with an
empty header list and in particular no Authorization header. -/
theorem C10_admin_calls_without_token (recordId : String) :
    apiClient.adminGetAllRecords none = ⟨"GET", "/records/admin/all", []⟩
    ∧ apiClient.adminDeleteRecord none recordId
        = ⟨"DELETE", "/records/admin/record/" ++ recordId, []⟩
    ∧ (apiClient.adminGetAllRecords none).headers.all
        (fun p => decide (p.1 ≠ "Authorization")) = true
    ∧ (apiClient.adminDeleteRecord none recordId).headers.all
        (fun p => decide (p.1 ≠ "Authorization")) = true := by
  exact ⟨rfl, rfl, rfl, rfl⟩
